import Mathlib

/-!
Shallow embedding of the Joystream query-node content-directory entity mappings:
the batch reference-integrity validator (`ignoreOperation.ts`) and the four event
dispatchers (`content-directory/entity/index.ts`).  Parts of the repository the
mappings call into but whose sources are not provided (`decode.ts`, the
`create.ts` / `update.ts` / `remove.ts` handlers, `get-or-create.ts`,
`content-dir-consts.ts` and the batch-application transaction mapping) are
modelled from the specification; each such definition says so in its doc
comment.  Everything else is translated directly from the TypeScript source.
-/

namespace ContentDirectory

/-- The closed enumeration of known content-directory classes
(`ContentDirectoryKnownClasses`). -/
inductive ClassName where
  | channel
  | category
  | knownLicense
  | userDefinedLicense
  | joystreamMediaLocation
  | httpMediaLocation
  | videoMedia
  | video
  | language
  | videoMediaEncoding
  | license
  | mediaLocation
  | featuredVideo
  deriving DecidableEq

/-- The typed tables of the persisted store, one per entity model the mappings
read or write. -/
inductive Table where
  | channel
  | category
  | knownLicenseEntity
  | userDefinedLicenseEntity
  | joystreamMediaLocationEntity
  | httpMediaLocationEntity
  | videoMedia
  | video
  | language
  | videoMediaEncoding
  | licenseEntity
  | mediaLocationEntity
  | featuredVideo
  deriving DecidableEq

/-- The typed table a known class's lifecycle handlers write. -/
def tableOf : ClassName → Table
  | .channel => .channel
  | .category => .category
  | .knownLicense => .knownLicenseEntity
  | .userDefinedLicense => .userDefinedLicenseEntity
  | .joystreamMediaLocation => .joystreamMediaLocationEntity
  | .httpMediaLocation => .httpMediaLocationEntity
  | .videoMedia => .videoMedia
  | .video => .video
  | .language => .language
  | .videoMediaEncoding => .videoMediaEncoding
  | .license => .licenseEntity
  | .mediaLocation => .mediaLocationEntity
  | .featuredVideo => .featuredVideo

/-- Modelled from the spec: the external class registry ("Class Registry
Lookup") mapping numeric class ids to known class names; ids outside the
registry are unknown.  The concrete id assignment stands in for
`contentDirectoryClassNamesWithId`, which is not among the provided sources. -/
def knownClassOfId : Nat → Option ClassName
  | 1 => some .channel
  | 2 => some .category
  | 3 => some .knownLicense
  | 4 => some .userDefinedLicense
  | 5 => some .joystreamMediaLocation
  | 6 => some .httpMediaLocation
  | 7 => some .videoMedia
  | 8 => some .video
  | 9 => some .language
  | 10 => some .videoMediaEncoding
  | 11 => some .license
  | 12 => some .mediaLocation
  | 13 => some .featuredVideo
  | _ => none

/-- A decoded relation-typed property value: a pointer to another entity,
tagged with whether the target must already be persisted (`existing = true`)
or is expected to be created within the same pending batch. -/
structure Reference where
  entityId : Nat
  existing : Bool
  deriving DecidableEq

/-- Modelled from the spec: the named bag a raw event payload decodes into.
Only the relation-typed (Reference) fields are modelled, since scalar fields do
not participate in reference validation. -/
structure RawProps where
  language : Option Reference := none
  category : Option Reference := none
  channel : Option Reference := none
  license : Option Reference := none
  media : Option Reference := none
  encoding : Option Reference := none
  location : Option Reference := none
  knownLicense : Option Reference := none
  userDefinedLicense : Option Reference := none
  joystreamMediaLocation : Option Reference := none
  httpMediaLocation : Option Reference := none
  video : Option Reference := none
  deriving DecidableEq

/-- A per-class property layout: the ordered property names the decoder maps
raw argument values onto. -/
abbrev Layout := List String

/-- Modelled from the spec: per-class layout (`content-dir-consts.ts` is not
among the provided sources); each class's layout lists that class's own
property names, so layouts of distinct classes are distinct. -/
def channelPropertyNamesWithId : Layout := ["t", "d", "language"]

/-- Modelled from the spec: the Category class layout. -/
def categoryPropertyNamesWithId : Layout := ["n", "d"]

/-- Modelled from the spec: the KnownLicense class layout (source spelling). -/
def knownLicensePropertyNamesWIthId : Layout := ["c", "n"]

/-- Modelled from the spec: the UserDefinedLicense class layout. -/
def userDefinedLicensePropertyNamesWithId : Layout := ["c"]

/-- Modelled from the spec: the JoystreamMediaLocation class layout. -/
def joystreamMediaLocationPropertyNamesWithId : Layout := ["o"]

/-- Modelled from the spec: the HttpMediaLocation class layout. -/
def httpMediaLocationPropertyNamesWithId : Layout := ["u", "p"]

/-- Modelled from the spec: the VideoMedia class layout. -/
def videoMediaPropertyNamesWithId : Layout := ["encoding", "w", "h", "s", "location"]

/-- Modelled from the spec: the Video class layout. -/
def videoPropertyNamesWithId : Layout :=
  ["t", "d", "category", "channel", "language", "license", "media"]

/-- Modelled from the spec: the Language class layout (source spelling). -/
def languagePropertyNamesWIthId : Layout := ["n", "c"]

/-- Modelled from the spec: the VideoMediaEncoding class layout. -/
def videoMediaEncodingPropertyNamesWithId : Layout := ["n"]

/-- Modelled from the spec: the License class layout. -/
def licensePropertyNamesWithId : Layout := ["knownLicense", "userDefinedLicense", "a"]

/-- Modelled from the spec: the MediaLocation class layout. -/
def mediaLocationPropertyNamesWithId : Layout := ["joystreamMediaLocation", "httpMediaLocation"]

/-- Modelled from the spec: the FeaturedVideo class layout. -/
def featuredVideoPropertyNamesWithId : Layout := ["video"]

/-- Modelled from the spec: look one named relation field up in the raw bag. -/
def rawField (raw : RawProps) (name : String) : Option Reference :=
  if name = "language" then raw.language
  else if name = "category" then raw.category
  else if name = "channel" then raw.channel
  else if name = "license" then raw.license
  else if name = "media" then raw.media
  else if name = "encoding" then raw.encoding
  else if name = "location" then raw.location
  else if name = "knownLicense" then raw.knownLicense
  else if name = "userDefinedLicense" then raw.userDefinedLicense
  else if name = "joystreamMediaLocation" then raw.joystreamMediaLocation
  else if name = "httpMediaLocation" then raw.httpMediaLocation
  else if name = "video" then raw.video
  else none

/-- Modelled from the spec: the Property Decoder populates a named field only
when the class layout used for decoding carries that name; decoding under a
layout that lacks the name leaves the field unset. -/
def projectField (layout : Layout) (raw : RawProps) (name : String) : Option Reference :=
  if layout.contains name then rawField raw name else none

/-- The relation-typed fields of a decoded Channel bag (`IChannel`). -/
structure IChannel where
  language : Option Reference
  deriving DecidableEq

/-- The relation-typed fields of a decoded VideoMedia bag (`IVideoMedia`). -/
structure IVideoMedia where
  encoding : Option Reference
  location : Option Reference
  deriving DecidableEq

/-- The relation-typed fields of a decoded Video bag (`IVideo`). -/
structure IVideo where
  category : Option Reference
  channel : Option Reference
  language : Option Reference
  license : Option Reference
  media : Option Reference
  deriving DecidableEq

/-- The relation-typed fields of a decoded License bag (`ILicense`). -/
structure ILicense where
  knownLicense : Option Reference
  userDefinedLicense : Option Reference
  deriving DecidableEq

/-- The relation-typed fields of a decoded MediaLocation bag (`IMediaLocation`). -/
structure IMediaLocation where
  joystreamMediaLocation : Option Reference
  httpMediaLocation : Option Reference
  deriving DecidableEq

/-- The relation-typed fields of a decoded FeaturedVideo bag (`IFeaturedVideo`). -/
structure IFeaturedVideo where
  video : Option Reference
  deriving DecidableEq

/-- Modelled from the spec: `decode.setEntityPropertyValues` /
`decode.setProperties` specialised to `IChannel` under the given layout. -/
def decodeChannel (layout : Layout) (raw : RawProps) : IChannel :=
  { language := projectField layout raw "language" }

/-- Modelled from the spec: decoding into `IVideoMedia` under the given layout. -/
def decodeVideoMedia (layout : Layout) (raw : RawProps) : IVideoMedia :=
  { encoding := projectField layout raw "encoding"
    location := projectField layout raw "location" }

/-- Modelled from the spec: decoding into `IVideo` under the given layout. -/
def decodeVideo (layout : Layout) (raw : RawProps) : IVideo :=
  { category := projectField layout raw "category"
    channel := projectField layout raw "channel"
    language := projectField layout raw "language"
    license := projectField layout raw "license"
    media := projectField layout raw "media" }

/-- Modelled from the spec: decoding into `ILicense` under the given layout. -/
def decodeLicense (layout : Layout) (raw : RawProps) : ILicense :=
  { knownLicense := projectField layout raw "knownLicense"
    userDefinedLicense := projectField layout raw "userDefinedLicense" }

/-- Modelled from the spec: decoding into `IMediaLocation` under the given layout. -/
def decodeMediaLocation (layout : Layout) (raw : RawProps) : IMediaLocation :=
  { joystreamMediaLocation := projectField layout raw "joystreamMediaLocation"
    httpMediaLocation := projectField layout raw "httpMediaLocation" }

/-- Modelled from the spec: decoding into `IFeaturedVideo` under the given layout. -/
def decodeFeaturedVideo (layout : Layout) (raw : RawProps) : IFeaturedVideo :=
  { video := projectField layout raw "video" }

/-- A generic ClassEntity index row. -/
structure ClassEntityRow where
  id : String
  classId : Nat
  version : Nat
  happenedIn : Nat
  deriving DecidableEq

/-- The persisted store, at the granularity the mappings read and write it:
presence of typed rows per table and string id, the ClassEntity index rows, and
the global next-entity-id counter. -/
structure Store where
  tables : List (Table × String)
  classEntities : List ClassEntityRow
  nextEntityId : Nat
  deriving DecidableEq

/-- `db.get(Model, { where: { id } })` tested for presence of a row. -/
def Store.hasRow (db : Store) (t : Table) (id : String) : Bool :=
  db.tables.any (fun r => r.1 == t && r.2 == id)

/-- The value placed in a `where: { id: ... }` clause.  `toStringMethod`
models the un-invoked method reference `entityId.toString` that
`ignoreOperation.ts` passes in its FeaturedVideo case (line 178): a function
value, not the id string. -/
inductive QueryId where
  | str (s : String)
  | toStringMethod
  deriving DecidableEq

/-- `db.get` with a general query id: a stored row's string id never equals a
function value, so a `toStringMethod` query matches no row. -/
def Store.getRow (db : Store) (t : Table) (q : QueryId) : Bool :=
  match q with
  | .str s => db.hasRow t s
  | .toStringMethod => false

/-- One entity-creation operation of a batch (`ICreateEntityOperation`). -/
structure ICreateEntityOperation where
  classId : Nat
  deriving DecidableEq

/-- A batch entity (`IEntity`): its position among the batch's creation
operations and its raw property payload. -/
structure IEntity where
  indexOf : Option Nat
  properties : RawProps
  deriving DecidableEq

/-- The batch-scoped grouping of entities by class name (`ClassEntityMap`),
kept in JS `Map` insertion order. -/
abbrev ClassEntityMap := List (ClassName × List IEntity)

/-- `Map.get` on the insertion-ordered class-entity map. -/
def lookupEntry (m : ClassEntityMap) (cn : ClassName) : Option (List IEntity) :=
  (m.find? (fun p => p.1 == cn)).map (fun p => p.2)

/-- Modelled from the spec: `getClassName` (`create.ts`, not under the provided
sources) resolves a batch entity to its known class name using the batch's own
creation records and the class registry, not the store; `none` when the class
is unknown. -/
def getClassName (createEntityOperations : List ICreateEntityOperation)
    (e : IEntity) : Option ClassName :=
  match e.indexOf with
  | none => none
  | some i =>
    match createEntityOperations[i]? with
    | none => none
    | some op => knownClassOfId op.classId

/-- `getEntity` from `ignoreOperation.ts`: `true` exactly when the referenced
id does not appear among the batch's newly created entities of the class
(no entry for the class, or no entity whose `indexOf` equals the id). -/
def getEntity (classEntityMap : ClassEntityMap) (className : ClassName)
    (entityId : Nat) : Bool :=
  match lookupEntry classEntityMap className with
  | none => true
  | some newlyCreatedEntities =>
    !(newlyCreatedEntities.any (fun e => e.indexOf == some entityId))

/-- `classEntityMap.set(className, es ? [...es, entity] : [entity])` on a JS
`Map`: an existing key keeps its position and appends; a new key is appended at
the end. -/
def insertAppend (m : ClassEntityMap) (cn : ClassName) (e : IEntity) : ClassEntityMap :=
  match m with
  | [] => [(cn, [e])]
  | p :: rest =>
    if p.1 = cn then (p.1, p.2 ++ [e]) :: rest else p :: insertAppend rest cn e

/-- The body of the first loop of `transaction`: add one entity to the map
under its resolved class name, skipping entities of unknown class. -/
def buildStep (ops : List ICreateEntityOperation) (m : ClassEntityMap)
    (e : IEntity) : ClassEntityMap :=
  match getClassName ops e with
  | none => m
  | some cn => insertAppend m cn e

/-- The first loop of `transaction`: group the batch's entities by resolved
class name. -/
def buildClassEntityMap (ops : List ICreateEntityOperation)
    (entities : List IEntity) : ClassEntityMap :=
  entities.foldl (buildStep ops) []

/-- The repeated per-reference check of the `transaction` switch: an
`existing` reference queries the persisted store by the stringified id, a
batch-local reference is looked up in the class-entity map; `true` means
unresolved. -/
def refUnresolved (db : Store) (m : ClassEntityMap) (t : Table) (cn : ClassName)
    (q : Option Reference) : Bool :=
  match q with
  | some r =>
    if r.existing then !(db.getRow t (.str (toString r.entityId)))
    else getEntity m cn r.entityId
  | none => false

/-- The CHANNEL case of the `transaction` switch. -/
def scanChannel (db : Store) (m : ClassEntityMap) (props : IChannel) : Bool :=
  refUnresolved db m .language .language props.language

/-- The VIDEOMEDIA case of the `transaction` switch. -/
def scanVideoMedia (db : Store) (m : ClassEntityMap) (props : IVideoMedia) : Bool :=
  refUnresolved db m .videoMediaEncoding .videoMediaEncoding props.encoding ||
  refUnresolved db m .mediaLocationEntity .mediaLocation props.location

/-- The VIDEO case of the `transaction` switch. -/
def scanVideo (db : Store) (m : ClassEntityMap) (props : IVideo) : Bool :=
  refUnresolved db m .category .category props.category ||
  refUnresolved db m .channel .channel props.channel ||
  refUnresolved db m .language .language props.language ||
  refUnresolved db m .licenseEntity .license props.license ||
  refUnresolved db m .videoMedia .videoMedia props.media

/-- The LICENSE case of the `transaction` switch. -/
def scanLicense (db : Store) (m : ClassEntityMap) (props : ILicense) : Bool :=
  refUnresolved db m .knownLicenseEntity .knownLicense props.knownLicense ||
  refUnresolved db m .userDefinedLicenseEntity .userDefinedLicense props.userDefinedLicense

/-- The MEDIALOCATION case of the `transaction` switch. -/
def scanMediaLocation (db : Store) (m : ClassEntityMap) (props : IMediaLocation) : Bool :=
  refUnresolved db m .joystreamMediaLocationEntity .joystreamMediaLocation
    props.joystreamMediaLocation ||
  refUnresolved db m .httpMediaLocationEntity .httpMediaLocation props.httpMediaLocation

/-- The FEATUREDVIDEOS case of the `transaction` switch.  Note the source
passes `video.entityId.toString` - the method itself, not a call - as the
query id of the `existing` branch (`ignoreOperation.ts` line 178). -/
def scanFeaturedVideo (db : Store) (m : ClassEntityMap) (props : IFeaturedVideo) : Bool :=
  match props.video with
  | some video =>
    if video.existing then !(db.getRow .video .toStringMethod)
    else getEntity m .video video.entityId
  | none => false

/-- One iteration of the inner loop of `transaction`: decode the entity's
properties under its class layout and check each Reference it carries; classes
without relation-typed properties fall through the switch default. -/
def scanEntity (db : Store) (m : ClassEntityMap) (cn : ClassName) (e : IEntity) : Bool :=
  match cn with
  | .channel => scanChannel db m (decodeChannel channelPropertyNamesWithId e.properties)
  | .videoMedia =>
    scanVideoMedia db m (decodeVideoMedia videoMediaPropertyNamesWithId e.properties)
  | .video => scanVideo db m (decodeVideo videoPropertyNamesWithId e.properties)
  | .license => scanLicense db m (decodeLicense licensePropertyNamesWithId e.properties)
  | .mediaLocation =>
    scanMediaLocation db m (decodeMediaLocation mediaLocationPropertyNamesWithId e.properties)
  | .featuredVideo =>
    scanFeaturedVideo db m (decodeFeaturedVideo featuredVideoPropertyNamesWithId e.properties)
  | _ => false

/-- The inner loop of `transaction` over one class's entities, returning on the
first unresolved reference. -/
def scanEntities (db : Store) (m : ClassEntityMap) (cn : ClassName) :
    List IEntity → Bool
  | [] => false
  | e :: rest => if scanEntity db m cn e then true else scanEntities db m cn rest

/-- The outer loop of `transaction` over the class-entity map, returning on the
first unresolved reference. -/
def scanMap (db : Store) (m : ClassEntityMap) : ClassEntityMap → Bool
  | [] => false
  | p :: rest => if scanEntities db m p.1 p.2 then true else scanMap db m rest

namespace shouldIgnore

/-- `shouldIgnore.transaction` from `ignoreOperation.ts`: build the batch's
class-entity map, then scan every entity's references, returning `true` (ignore
the whole batch) on the first unresolved reference and `false` otherwise. -/
def transaction (db : Store) (createEntityOperations : List ICreateEntityOperation)
    (entities : List IEntity) : Bool :=
  let classEntityMap := buildClassEntityMap createEntityOperations entities
  scanMap db classEntityMap classEntityMap

/-- `shouldIgnore.channel`: the standalone reference check for a Channel bag,
consulting only the persisted store. -/
def channel (props : IChannel) (db : Store) : Bool :=
  match props.language with
  | some l => !(db.hasRow .language (toString l.entityId))
  | none => false

/-- `shouldIgnore.videoMedia`: the standalone reference check for a VideoMedia
bag, consulting only the persisted store. -/
def videoMedia (props : IVideoMedia) (db : Store) : Bool :=
  (match props.encoding with
   | some e => !(db.hasRow .videoMediaEncoding (toString e.entityId))
   | none => false) ||
  (match props.location with
   | some l => !(db.hasRow .mediaLocationEntity (toString l.entityId))
   | none => false)

/-- `shouldIgnore.video`: the standalone reference check for a Video bag,
consulting only the persisted store. -/
def video (props : IVideo) (db : Store) : Bool :=
  (match props.category with
   | some r => !(db.hasRow .category (toString r.entityId))
   | none => false) ||
  (match props.channel with
   | some r => !(db.hasRow .channel (toString r.entityId))
   | none => false) ||
  (match props.language with
   | some r => !(db.hasRow .language (toString r.entityId))
   | none => false) ||
  (match props.license with
   | some r => !(db.hasRow .licenseEntity (toString r.entityId))
   | none => false) ||
  (match props.media with
   | some r => !(db.hasRow .videoMedia (toString r.entityId))
   | none => false)

/-- `shouldIgnore.mediaLocation`: the standalone reference check for a
MediaLocation bag, consulting only the persisted store. -/
def mediaLocation (props : IMediaLocation) (db : Store) : Bool :=
  (match props.joystreamMediaLocation with
   | some r => !(db.hasRow .joystreamMediaLocationEntity (toString r.entityId))
   | none => false) ||
  (match props.httpMediaLocation with
   | some r => !(db.hasRow .httpMediaLocationEntity (toString r.entityId))
   | none => false)

/-- `shouldIgnore.license`: the standalone reference check for a License bag,
consulting only the persisted store. -/
def license (props : ILicense) (db : Store) : Bool :=
  (match props.knownLicense with
   | some r => !(db.hasRow .knownLicenseEntity (toString r.entityId))
   | none => false) ||
  (match props.userDefinedLicense with
   | some r => !(db.hasRow .userDefinedLicenseEntity (toString r.entityId))
   | none => false)

/-- `shouldIgnore.featuredVideo`: the standalone reference check for a
FeaturedVideo bag, consulting only the persisted store (here, unlike the batch
case, `entityId.toString()` is actually invoked - line 271). -/
def featuredVideo (props : IFeaturedVideo) (db : Store) : Bool :=
  match props.video with
  | some v => !(db.hasRow .video (toString v.entityId))
  | none => false

end shouldIgnore

/-- The `extrinsic` attached to a decoded ledger event; only its `method`
field is consulted by the dispatchers. -/
structure Extrinsic where
  method : String
  deriving DecidableEq

/-- A decoded ledger event as the dispatchers consume it: block height, the
numeric entity id (`decode.stringIfyEntityId` / `decode.getClassEntity`), the
event's class id (used by EntityCreated only), the optional extrinsic, and the
raw property payload. -/
structure SubstrateEvent where
  blockNumber : Nat
  entityId : Nat
  classId : Nat
  extrinsic : Option Extrinsic
  raw : RawProps
  deriving DecidableEq

/-- `event.extrinsic && event.extrinsic.method === 'transaction'`. -/
def isTransactionWrapper (e : Option Extrinsic) : Bool :=
  match e with
  | some ex => ex.method == "transaction"
  | none => false

/-- Modelled from the spec: `getKnownClass` (`get-or-create.ts`, not under the
provided sources) resolves an entity id to its known class through the entity's
ClassEntity row and the external class registry, also returning the ClassEntity
row itself; `none` stands for the spec's "unknown" outcome. -/
def getKnownClass (db : Store) (id : String) :
    Option (ClassName × ClassEntityRow) :=
  match db.classEntities.find? (fun r => r.id == id) with
  | none => none
  | some ce => (knownClassOfId ce.classId).map (fun cn => (cn, ce))

/-- An un-awaited JS Promise value: the object wrapping the boolean the async
call would eventually resolve to. -/
structure JsPromise (α : Type) where
  val : α

/-- JS truthiness of a Promise: an object is always truthy, whatever value it
would resolve to.  `index.ts` tests `if (shouldIgnore.channel(props, db))`
without `await`, so this is the condition its guards actually branch on. -/
def JsPromise.isTruthy {α : Type} (_ : JsPromise α) : Bool := true

/-- Modelled from the spec: the create handlers (`create.ts`, not under the
provided sources) materialize the new typed row of their class; row presence is
the granularity this model tracks. -/
def createTyped (db : Store) (cn : ClassName) (id : String) : Store :=
  { db with tables := (tableOf cn, id) :: db.tables }

/-- Modelled from the spec: the update handlers (`update.ts`, not under the
provided sources) load the typed row, apply the decoded fields and bump its
version, silently doing nothing when the row is absent; at the row-presence
granularity of this model an update leaves the store unchanged. -/
def updateTyped (db : Store) (_ : ClassName) (_ : String) : Store := db

/-- Removal of one typed row from its table. -/
def removeTypedRow (db : Store) (t : Table) (id : String) : Store :=
  { db with tables := db.tables.filter (fun r => !(r.1 == t && r.2 == id)) }

/-- Modelled from the spec: `removeChannel` (`remove.ts`, not under the
provided sources) deletes the typed Channel row. -/
def removeChannel (db : Store) (id : String) : Store :=
  removeTypedRow db .channel id

/-- Modelled from the spec: `removeCategory` deletes the typed Category row. -/
def removeCategory (db : Store) (id : String) : Store :=
  removeTypedRow db .category id

/-- Modelled from the spec: `removeKnownLicense` deletes the typed row. -/
def removeKnownLicense (db : Store) (id : String) : Store :=
  removeTypedRow db .knownLicenseEntity id

/-- Modelled from the spec: `removeUserDefinedLicense` deletes the typed row. -/
def removeUserDefinedLicense (db : Store) (id : String) : Store :=
  removeTypedRow db .userDefinedLicenseEntity id

/-- Modelled from the spec: `removeJoystreamMediaLocation` deletes the typed row. -/
def removeJoystreamMediaLocation (db : Store) (id : String) : Store :=
  removeTypedRow db .joystreamMediaLocationEntity id

/-- Modelled from the spec: `removeHttpMediaLocation` deletes the typed row. -/
def removeHttpMediaLocation (db : Store) (id : String) : Store :=
  removeTypedRow db .httpMediaLocationEntity id

/-- Modelled from the spec: `removeVideoMedia` deletes the typed row. -/
def removeVideoMedia (db : Store) (id : String) : Store :=
  removeTypedRow db .videoMedia id

/-- Modelled from the spec: `removeVideo` deletes the typed row. -/
def removeVideo (db : Store) (id : String) : Store :=
  removeTypedRow db .video id

/-- Modelled from the spec: `removeLanguage` deletes the typed row. -/
def removeLanguage (db : Store) (id : String) : Store :=
  removeTypedRow db .language id

/-- Modelled from the spec: `removeVideoMediaEncoding` deletes the typed row. -/
def removeVideoMediaEncoding (db : Store) (id : String) : Store :=
  removeTypedRow db .videoMediaEncoding id

/-- Modelled from the spec: `removeLicense` deletes the typed row. -/
def removeLicense (db : Store) (id : String) : Store :=
  removeTypedRow db .licenseEntity id

/-- Modelled from the spec: `removeMediaLocation` deletes the typed row. -/
def removeMediaLocation (db : Store) (id : String) : Store :=
  removeTypedRow db .mediaLocationEntity id

/-- Modelled from the spec: `removeFeaturedVideo` deletes the typed row. -/
def removeFeaturedVideo (db : Store) (id : String) : Store :=
  removeTypedRow db .featuredVideo id

/-- `db.remove<ClassEntity>(classEntity)`: delete the ClassEntity row with the
given id. -/
def removeClassEntityRow (db : Store) (id : String) : Store :=
  { db with classEntities := db.classEntities.filter (fun r => !(r.id == id)) }

/-- `db.save<ClassEntity>`: upsert the row by its id. -/
def saveClassEntityRow : List ClassEntityRow → ClassEntityRow → List ClassEntityRow
  | [], ce => [ce]
  | r :: rest, ce =>
    if r.id = ce.id then ce :: rest else r :: saveClassEntityRow rest ce

/-- Modelled from the spec: `getOrCreate.nextEntityId` (`get-or-create.ts`, not
under the provided sources) persists the global next-entity-id counter, set to
the given value. -/
def setNextEntityId (db : Store) (v : Nat) : Store :=
  { db with nextEntityId := v }

/-- The layout each arm of the `contentDirectory_EntitySchemaSupportAdded`
switch passes to the decoder, transcribed arm by arm from `index.ts`
(lines 105-191); note VIDEOMEDIA is decoded with `videoPropertyNamesWithId`
(line 143). -/
def schemaAddedLayoutFor : ClassName → Layout
  | .channel => channelPropertyNamesWithId
  | .category => categoryPropertyNamesWithId
  | .knownLicense => knownLicensePropertyNamesWIthId
  | .userDefinedLicense => userDefinedLicensePropertyNamesWithId
  | .joystreamMediaLocation => joystreamMediaLocationPropertyNamesWithId
  | .httpMediaLocation => httpMediaLocationPropertyNamesWithId
  | .videoMedia => videoPropertyNamesWithId
  | .video => videoPropertyNamesWithId
  | .language => languagePropertyNamesWIthId
  | .videoMediaEncoding => videoMediaEncodingPropertyNamesWithId
  | .license => licensePropertyNamesWithId
  | .mediaLocation => mediaLocationPropertyNamesWithId
  | .featuredVideo => featuredVideoPropertyNamesWithId

/-- The layout each arm of the `contentDirectory_EntityPropertyValuesUpdated`
switch passes to the decoder, transcribed arm by arm from `index.ts`
(lines 298-399); note VIDEOMEDIA is decoded with `videoPropertyNamesWithId`
(line 347) and LICENSE and MEDIALOCATION with
`videoMediaEncodingPropertyNamesWithId` (lines 377, 384). -/
def updatedLayoutFor : ClassName → Layout
  | .channel => channelPropertyNamesWithId
  | .category => categoryPropertyNamesWithId
  | .knownLicense => knownLicensePropertyNamesWIthId
  | .userDefinedLicense => userDefinedLicensePropertyNamesWithId
  | .joystreamMediaLocation => joystreamMediaLocationPropertyNamesWithId
  | .httpMediaLocation => httpMediaLocationPropertyNamesWithId
  | .videoMedia => videoPropertyNamesWithId
  | .video => videoPropertyNamesWithId
  | .language => languagePropertyNamesWIthId
  | .videoMediaEncoding => videoMediaEncodingPropertyNamesWithId
  | .license => videoMediaEncodingPropertyNamesWithId
  | .mediaLocation => videoMediaEncodingPropertyNamesWithId
  | .featuredVideo => featuredVideoPropertyNamesWithId

/-- `contentDirectory_EntitySchemaSupportAdded` from `index.ts`: skip
transaction wrappers, resolve the class (silently dropping unknown classes),
then dispatch to the per-class create handler - each reference-bearing arm
first tests the un-awaited `shouldIgnore` call, which is a truthy Promise. -/
def entitySchemaSupportAdded (db : Store) (event : SubstrateEvent) :
    Except String Store :=
  if isTransactionWrapper event.extrinsic then .ok db
  else
    let entityId := toString event.entityId
    match getKnownClass db entityId with
    | none => .ok db
    | some (knownClassName, _) =>
      match knownClassName with
      | .channel =>
        let props := decodeChannel (schemaAddedLayoutFor .channel) event.raw
        if (JsPromise.mk (shouldIgnore.channel props db)).isTruthy then .ok db
        else .ok (createTyped db .channel entityId)
      | .category => .ok (createTyped db .category entityId)
      | .knownLicense => .ok (createTyped db .knownLicense entityId)
      | .userDefinedLicense => .ok (createTyped db .userDefinedLicense entityId)
      | .joystreamMediaLocation => .ok (createTyped db .joystreamMediaLocation entityId)
      | .httpMediaLocation => .ok (createTyped db .httpMediaLocation entityId)
      | .videoMedia =>
        let props := decodeVideoMedia (schemaAddedLayoutFor .videoMedia) event.raw
        if (JsPromise.mk (shouldIgnore.videoMedia props db)).isTruthy then .ok db
        else .ok (createTyped db .videoMedia entityId)
      | .video =>
        let props := decodeVideo (schemaAddedLayoutFor .video) event.raw
        if (JsPromise.mk (shouldIgnore.video props db)).isTruthy then .ok db
        else .ok (createTyped db .video entityId)
      | .language => .ok (createTyped db .language entityId)
      | .videoMediaEncoding => .ok (createTyped db .videoMediaEncoding entityId)
      | .featuredVideo =>
        let props := decodeFeaturedVideo (schemaAddedLayoutFor .featuredVideo) event.raw
        if (JsPromise.mk (shouldIgnore.featuredVideo props db)).isTruthy then .ok db
        else .ok (createTyped db .featuredVideo entityId)
      | .mediaLocation =>
        let props := decodeMediaLocation (schemaAddedLayoutFor .mediaLocation) event.raw
        if (JsPromise.mk (shouldIgnore.mediaLocation props db)).isTruthy then .ok db
        else .ok (createTyped db .mediaLocation entityId)
      | .license =>
        let props := decodeLicense (schemaAddedLayoutFor .license) event.raw
        if (JsPromise.mk (shouldIgnore.license props db)).isTruthy then .ok db
        else .ok (createTyped db .license entityId)

/-- The bookkeeping side of one `contentDirectory_EntityRemoved` run, recorded
so that the order of store deletions is part of the result. -/
inductive StoreOp where
  | removeTyped (t : Table) (id : String)
  | removeClassEntity (id : String)
  deriving DecidableEq

/-- `contentDirectory_EntityRemoved` from `index.ts`: resolve the class
(silently dropping when no known class resolves), invoke the per-class remove
handler, then delete the ClassEntity row; there is no transaction-wrapper
skip.  The returned trace lists the deletions in execution order. -/
def entityRemoved (db : Store) (event : SubstrateEvent) :
    Store × List StoreOp :=
  let entityId := toString event.entityId
  match getKnownClass db entityId with
  | none => (db, [])
  | some (knownClassName, classEntity) =>
    let step : Store × Table :=
      match knownClassName with
      | .channel => (removeChannel db entityId, .channel)
      | .category => (removeCategory db entityId, .category)
      | .knownLicense => (removeKnownLicense db entityId, .knownLicenseEntity)
      | .userDefinedLicense => (removeUserDefinedLicense db entityId, .userDefinedLicenseEntity)
      | .joystreamMediaLocation =>
        (removeJoystreamMediaLocation db entityId, .joystreamMediaLocationEntity)
      | .httpMediaLocation => (removeHttpMediaLocation db entityId, .httpMediaLocationEntity)
      | .videoMedia => (removeVideoMedia db entityId, .videoMedia)
      | .video => (removeVideo db entityId, .video)
      | .language => (removeLanguage db entityId, .language)
      | .videoMediaEncoding => (removeVideoMediaEncoding db entityId, .videoMediaEncoding)
      | .license => (removeLicense db entityId, .licenseEntity)
      | .mediaLocation => (removeMediaLocation db entityId, .mediaLocationEntity)
      | .featuredVideo => (removeFeaturedVideo db entityId, .featuredVideo)
    (removeClassEntityRow step.1 classEntity.id,
      [StoreOp.removeTyped step.2 entityId, StoreOp.removeClassEntity classEntity.id])

/-- `contentDirectory_EntityCreated` from `index.ts`: skip transaction
wrappers, save a ClassEntity row carrying the event's class id, the stringified
entity id and the block height as version, then advance the global
next-entity-id counter to `entityId + 1`; no typed row is touched and the class
registry is never consulted. -/
def entityCreated (db : Store) (event : SubstrateEvent) : Store :=
  if isTransactionWrapper event.extrinsic then db
  else
    let ce : ClassEntityRow :=
      { id := toString event.entityId
        classId := event.classId
        version := event.blockNumber
        happenedIn := event.blockNumber }
    let db1 := { db with classEntities := saveClassEntityRow db.classEntities ce }
    setNextEntityId db1 (event.entityId + 1)

/-- `contentDirectory_EntityPropertyValuesUpdated` from `index.ts`: skip
transaction wrappers, raise a fatal error when the extrinsic payload is
missing, resolve the class (silently dropping when no known class resolves),
then dispatch to the per-class update handler - each reference-bearing arm
first tests the un-awaited `shouldIgnore` call, which is a truthy Promise. -/
def entityPropertyValuesUpdated (db : Store) (event : SubstrateEvent) :
    Except String Store :=
  if isTransactionWrapper event.extrinsic then .ok db
  else
    match event.extrinsic with
    | none => .error "Extrinsic data not found"
    | some _ =>
      let entityId := toString event.entityId
      match getKnownClass db entityId with
      | none => .ok db
      | some (knownClassName, _) =>
        match knownClassName with
        | .channel =>
          let props := decodeChannel (updatedLayoutFor .channel) event.raw
          if (JsPromise.mk (shouldIgnore.channel props db)).isTruthy then .ok db
          else .ok (updateTyped db .channel entityId)
        | .category => .ok (updateTyped db .category entityId)
        | .knownLicense => .ok (updateTyped db .knownLicense entityId)
        | .userDefinedLicense => .ok (updateTyped db .userDefinedLicense entityId)
        | .joystreamMediaLocation => .ok (updateTyped db .joystreamMediaLocation entityId)
        | .httpMediaLocation => .ok (updateTyped db .httpMediaLocation entityId)
        | .videoMedia =>
          let props := decodeVideoMedia (updatedLayoutFor .videoMedia) event.raw
          if (JsPromise.mk (shouldIgnore.videoMedia props db)).isTruthy then .ok db
          else .ok (updateTyped db .videoMedia entityId)
        | .video =>
          let props := decodeVideo (updatedLayoutFor .video) event.raw
          if (JsPromise.mk (shouldIgnore.video props db)).isTruthy then .ok db
          else .ok (updateTyped db .video entityId)
        | .language => .ok (updateTyped db .language entityId)
        | .videoMediaEncoding => .ok (updateTyped db .videoMediaEncoding entityId)
        | .license =>
          let props := decodeLicense (updatedLayoutFor .license) event.raw
          if (JsPromise.mk (shouldIgnore.license props db)).isTruthy then .ok db
          else .ok (updateTyped db .license entityId)
        | .mediaLocation =>
          let props := decodeMediaLocation (updatedLayoutFor .mediaLocation) event.raw
          if (JsPromise.mk (shouldIgnore.mediaLocation props db)).isTruthy then .ok db
          else .ok (updateTyped db .mediaLocation entityId)
        | .featuredVideo =>
          let props := decodeFeaturedVideo (updatedLayoutFor .featuredVideo) event.raw
          if (JsPromise.mk (shouldIgnore.featuredVideo props db)).isTruthy then .ok db
          else .ok (updateTyped db .featuredVideo entityId)

/-- Modelled from the spec: the batch-application step (the transaction mapping
that calls the validator before any write, not under the provided sources).
If the validator does not ignore the batch, every batch entity of a known class
is materialized as a typed row, its id taken from the entity's position among
the batch's creation records; an ignored batch writes nothing. -/
def applyBatch (db : Store) (ops : List ICreateEntityOperation)
    (entities : List IEntity) : Store :=
  if shouldIgnore.transaction db ops entities then db
  else
    entities.foldl
      (fun acc e =>
        match getClassName ops e with
        | none => acc
        | some cn => createTyped acc cn (toString (e.indexOf.getD 0)))
      db

/-- The standalone reference-check verdict attached to a resolved class: the
boolean the dispatcher's guard is meant to consult, computed by the matching
`shouldIgnore` routine on the bag decoded under the given layout; classes
without relation-typed properties have no standalone check. -/
def standaloneVerdict (cn : ClassName) (layout : Layout) (raw : RawProps)
    (db : Store) : Bool :=
  match cn with
  | .channel => shouldIgnore.channel (decodeChannel layout raw) db
  | .videoMedia => shouldIgnore.videoMedia (decodeVideoMedia layout raw) db
  | .video => shouldIgnore.video (decodeVideo layout raw) db
  | .license => shouldIgnore.license (decodeLicense layout raw) db
  | .mediaLocation => shouldIgnore.mediaLocation (decodeMediaLocation layout raw) db
  | .featuredVideo => shouldIgnore.featuredVideo (decodeFeaturedVideo layout raw) db
  | _ => false

/-- The inner validator loop is an early-exit disjunction over the class's
entities. -/
theorem scanEntities_eq_any (db : Store) (m : ClassEntityMap) (cn : ClassName)
    (es : List IEntity) :
    scanEntities db m cn es = es.any (fun e => scanEntity db m cn e) := by
  induction es with
  | nil => rfl
  | cons e rest ih => cases he : scanEntity db m cn e <;> simp [scanEntities, he, ih]

/-- The inner validator loop signals exactly when some scanned entity of the
class carries an unresolved reference. -/
theorem scanEntities_eq_true_iff (db : Store) (m : ClassEntityMap) (cn : ClassName)
    (es : List IEntity) :
    scanEntities db m cn es = true ↔ ∃ e ∈ es, scanEntity db m cn e = true := by
  rw [scanEntities_eq_any, List.any_eq_true]

/-- The outer validator loop is an early-exit disjunction over the map
entries. -/
theorem scanMap_eq_any (db : Store) (m : ClassEntityMap)
    (entries : ClassEntityMap) :
    scanMap db m entries = entries.any (fun p => scanEntities db m p.1 p.2) := by
  induction entries with
  | nil => rfl
  | cons p rest ih => cases hp : scanEntities db m p.1 p.2 <;> simp [scanMap, hp, ih]

/-- The outer validator loop signals exactly when some scanned map entry
contains an entity with an unresolved reference. -/
theorem scanMap_eq_true_iff (db : Store) (m : ClassEntityMap)
    (entries : ClassEntityMap) :
    scanMap db m entries = true ↔
      ∃ p ∈ entries, ∃ e ∈ p.2, scanEntity db m p.1 e = true := by
  rw [scanMap_eq_any, List.any_eq_true]
  constructor
  · rintro ⟨p, hp, hscan⟩
    exact ⟨p, hp, (scanEntities_eq_true_iff db m p.1 p.2).mp hscan⟩
  · rintro ⟨p, hp, he⟩
    exact ⟨p, hp, (scanEntities_eq_true_iff db m p.1 p.2).mpr he⟩

/-- Unfolding `insertAppend` when the head entry carries the class. -/
theorem insertAppend_cons_pos (es : List IEntity) (rest : ClassEntityMap)
    (cn : ClassName) (e : IEntity) :
    insertAppend ((cn, es) :: rest) cn e = (cn, es ++ [e]) :: rest := by
  simp [insertAppend]

/-- Unfolding `insertAppend` when the head entry carries another class. -/
theorem insertAppend_cons_neg (c : ClassName) (es : List IEntity)
    (rest : ClassEntityMap) (cn : ClassName) (e : IEntity) (h : ¬c = cn) :
    insertAppend ((c, es) :: rest) cn e = (c, es) :: insertAppend rest cn e := by
  simp [insertAppend, h]

/-- Inserting an entity under a class adds exactly that entity to the
entities reachable through the map. -/
theorem insertAppend_exists_iff (P : ClassName → IEntity → Prop)
    (m : ClassEntityMap) (cn : ClassName) (e : IEntity) :
    (∃ p ∈ insertAppend m cn e, ∃ x ∈ p.2, P p.1 x) ↔
      ((∃ p ∈ m, ∃ x ∈ p.2, P p.1 x) ∨ P cn e) := by
  induction m with
  | nil => simp [insertAppend]
  | cons q rest ih =>
    obtain ⟨c, es⟩ := q
    by_cases hq : c = cn
    · subst hq
      rw [insertAppend_cons_pos]
      simp only [List.mem_cons]
      constructor
      · rintro ⟨p, hp | hp, x, hx, hP⟩
        · subst hp
          simp only [List.mem_append, List.mem_singleton] at hx
          rcases hx with hx | hx
          · exact Or.inl ⟨(c, es), Or.inl rfl, x, hx, hP⟩
          · subst hx; exact Or.inr hP
        · exact Or.inl ⟨p, Or.inr hp, x, hx, hP⟩
      · rintro (⟨p, hp | hp, x, hx, hP⟩ | hP)
        · subst hp
          exact ⟨(c, es ++ [e]), Or.inl rfl, x, List.mem_append_left [e] hx, hP⟩
        · exact ⟨p, Or.inr hp, x, hx, hP⟩
        · exact ⟨(c, es ++ [e]), Or.inl rfl, e,
            List.mem_append_right es (List.mem_singleton_self e), hP⟩
    · rw [insertAppend_cons_neg c es rest cn e hq]
      simp only [List.mem_cons]
      constructor
      · rintro ⟨p, hp | hp, x, hx, hP⟩
        · subst hp; exact Or.inl ⟨(c, es), Or.inl rfl, x, hx, hP⟩
        · rcases (ih).mp ⟨p, hp, x, hx, hP⟩ with h | h
          · obtain ⟨p', hp', hx'⟩ := h
            exact Or.inl ⟨p', Or.inr hp', hx'⟩
          · exact Or.inr h
      · rintro (⟨p, hp | hp, x, hx, hP⟩ | hP)
        · subst hp; exact ⟨(c, es), Or.inl rfl, x, hx, hP⟩
        · obtain ⟨p', hp', hx'⟩ := (ih).mpr (Or.inl ⟨p, hp, x, hx, hP⟩)
          exact ⟨p', Or.inr hp', hx'⟩
        · obtain ⟨p', hp', hx'⟩ := (ih).mpr (Or.inr hP)
          exact ⟨p', Or.inr hp', hx'⟩

/-- Folding the grouping step over a list of entities: the entities reachable
through the resulting map are those of the accumulator plus the entities of the
list whose class resolves. -/
theorem buildFold_exists_iff (ops : List ICreateEntityOperation)
    (P : ClassName → IEntity → Prop) (entities : List IEntity) :
    ∀ acc : ClassEntityMap,
      (∃ p ∈ entities.foldl (buildStep ops) acc, ∃ x ∈ p.2, P p.1 x) ↔
        ((∃ p ∈ acc, ∃ x ∈ p.2, P p.1 x) ∨
          ∃ e ∈ entities, ∃ cn, getClassName ops e = some cn ∧ P cn e) := by
  induction entities with
  | nil => intro acc; simp
  | cons e rest ih =>
    intro acc
    rcases hcn : getClassName ops e with _ | cn
    · simp only [List.foldl_cons, buildStep, hcn, ih]
      constructor
      · rintro (h | h)
        · exact Or.inl h
        · obtain ⟨x, hx, c, hc, hP⟩ := h
          exact Or.inr ⟨x, List.mem_cons_of_mem _ hx, c, hc, hP⟩
      · rintro (h | ⟨x, hx, c, hc, hP⟩)
        · exact Or.inl h
        · rcases List.mem_cons.mp hx with hx | hx
          · subst hx; rw [hcn] at hc; cases hc
          · exact Or.inr ⟨x, hx, c, hc, hP⟩
    · simp only [List.foldl_cons, buildStep, hcn, ih, insertAppend_exists_iff]
      constructor
      · rintro (⟨h | h⟩ | h)
        · exact Or.inl h
        · exact Or.inr ⟨e, List.mem_cons_self e rest, cn, hcn, h⟩
        · obtain ⟨x, hx, c, hc, hP⟩ := h
          exact Or.inr ⟨x, List.mem_cons_of_mem _ hx, c, hc, hP⟩
      · rintro (h | ⟨x, hx, c, hc, hP⟩)
        · exact Or.inl (Or.inl h)
        · rcases List.mem_cons.mp hx with hx | hx
          · subst hx; rw [hcn] at hc
            cases hc; exact Or.inl (Or.inr hP)
          · exact Or.inr ⟨x, hx, c, hc, hP⟩

/-- A list filtered on the negation of a predicate has no member satisfying
the predicate. -/
theorem any_filter_not_eq_false {α : Type} (l : List α) (p : α → Bool) :
    (l.filter (fun a => !(p a))).any p = false := by
  rw [List.any_eq_false]
  intro a ha
  have := List.mem_filter.mp ha
  simpa using this.2

/-- A list filtered on the negation of a predicate yields nothing under
`find?` with the predicate. -/
theorem find?_filter_not_eq_none {α : Type} (l : List α) (p : α → Bool) :
    (l.filter (fun a => !(p a))).find? p = none := by
  rw [List.find?_eq_none]
  intro a ha
  have := List.mem_filter.mp ha
  simpa using this.2

/-- The ClassEntity row `getKnownClass` yields carries the id it was queried
with. -/
theorem getKnownClass_id_eq {db : Store} {id : String} {cn : ClassName}
    {ce : ClassEntityRow} (h : getKnownClass db id = some (cn, ce)) :
    ce.id = id := by
  unfold getKnownClass at h
  split at h
  · cases h
  · next r hf =>
    rcases hk : knownClassOfId r.classId with _ | c <;> rw [hk] at h
    · cases h
    · simp only [Option.map_some', Option.some.injEq, Prod.mk.injEq] at h
      obtain ⟨-, hce⟩ := h
      subst hce
      have hp := List.find?_some hf
      simpa using hp

/-- After an upsert, looking the row up by its id yields the saved row. -/
theorem find?_saveClassEntityRow (l : List ClassEntityRow) (ce : ClassEntityRow) :
    (saveClassEntityRow l ce).find? (fun r => r.id == ce.id) = some ce := by
  induction l with
  | nil => simp [saveClassEntityRow, List.find?]
  | cons r rest ih =>
    by_cases hr : r.id = ce.id
    · simp [saveClassEntityRow, hr, List.find?]
    · simp [saveClassEntityRow, hr, List.find?, ih]

/-- A store for claim C1: the referenced Video row with id "5" is persisted. -/
def c1Store : Store :=
  { tables := [(Table.video, "5")], classEntities := [], nextEntityId := 0 }

/-- The batch of claim C1: one creation operation, of the FeaturedVideo
class. -/
def c1Ops : List ICreateEntityOperation := [{ classId := 13 }]

/-- The batch entity of claim C1: a FeaturedVideo carrying an
`existing = true` Reference to Video entity 5. -/
def c1Entities : List IEntity :=
  [{ indexOf := some 0
     properties := { video := some { entityId := 5, existing := true } } }]

/-- Claim C1 (code bug): the claim says an `existing = true` Reference is
resolved by querying the store for a row of the target class with the
referenced id.  In the FEATUREDVIDEOS case of `transaction`
(`ignoreOperation.ts` line 178) the query id is the un-invoked method
reference `video.entityId.toString`, not the id string, so the persisted
Video row "5" is never found and the batch is ignored even though the
referenced row exists; every other case queries `entityId.toString()` as the
claim states. -/
theorem c1_featured_video_reference_lookup_bug :
    c1Store.hasRow Table.video "5" = true ∧
    shouldIgnore.transaction c1Store c1Ops c1Entities = true := by
  constructor
  · decide
  · decide

/-- Claim C2: the validator ignores a batch exactly when some batch entity of
a resolvable class carries a reference its per-reference check leaves
unresolved, and the verdict is reached on the first unresolved reference,
independently of the entities and map entries scanned after it. -/
theorem c2_batch_ignored_iff_unresolved :
    (∀ (db : Store) (ops : List ICreateEntityOperation) (entities : List IEntity),
      shouldIgnore.transaction db ops entities = true ↔
        ∃ e ∈ entities, ∃ cn,
          getClassName ops e = some cn ∧
          scanEntity db (buildClassEntityMap ops entities) cn e = true) ∧
    (∀ (db : Store) (m : ClassEntityMap) (cn : ClassName) (e : IEntity)
        (rest : List IEntity),
      scanEntity db m cn e = true → scanEntities db m cn (e :: rest) = true) ∧
    (∀ (db : Store) (m : ClassEntityMap) (cn : ClassName) (es : List IEntity)
        (rest : ClassEntityMap),
      scanEntities db m cn es = true → scanMap db m ((cn, es) :: rest) = true) := by
  refine ⟨?_, ?_, ?_⟩
  · intro db ops entities
    unfold shouldIgnore.transaction
    rw [scanMap_eq_true_iff]
    unfold buildClassEntityMap
    rw [buildFold_exists_iff ops
      (fun cn e => scanEntity db (List.foldl (buildStep ops) [] entities) cn e = true)
      entities []]
    simp
  · intro db m cn e rest he
    simp [scanEntities, he]
  · intro db m cn es rest hes
    simp [scanMap, hes]

/-- The batch entity of the claim C2 witness: a Channel carrying a
batch-local Reference that no batch entity satisfies. -/
def c2WitnessEntity : IEntity :=
  { indexOf := some 0
    properties := { language := some { entityId := 2, existing := false } } }

/-- Witness for claim C2: at a concrete store, map and entity whose reference
is unresolved, the inner loop verdict on the entity followed by any remainder
is already ignore. -/
theorem c2_witness :
    scanEntity { tables := [], classEntities := [], nextEntityId := 0 } []
      ClassName.channel c2WitnessEntity = true ∧
    scanEntities { tables := [], classEntities := [], nextEntityId := 0 } []
      ClassName.channel [c2WitnessEntity] = true :=
  ⟨by decide,
    c2_batch_ignored_iff_unresolved.2.1
      { tables := [], classEntities := [], nextEntityId := 0 } []
      ClassName.channel c2WitnessEntity [] (by decide)⟩

/-- The creation operations of claim C3: position 0 creates a Video
(class id 8), position 1 creates a Channel (class id 1). -/
def c3Ops : List ICreateEntityOperation := [{ classId := 8 }, { classId := 1 }]

/-- Entity A of claim C3: the Video created first, carrying an
`existing = false` Reference to the Channel created later in the batch. -/
def c3EntityA : IEntity :=
  { indexOf := some 0
    properties := { channel := some { entityId := 1, existing := false } } }

/-- Entity B of claim C3: the Channel created later in the same batch. -/
def c3EntityB : IEntity := { indexOf := some 1, properties := {} }

/-- Claim C3: a batch creating a Video that references, with
`existing = false`, a Channel created later in the same batch is not ignored
by the validator - for any persisted store - and after the batch is applied
both typed rows exist. -/
theorem c3_forward_reference_batch_succeeds (db : Store) :
    shouldIgnore.transaction db c3Ops [c3EntityA, c3EntityB] = false ∧
    (applyBatch db c3Ops [c3EntityA, c3EntityB]).hasRow Table.video "0" = true ∧
    (applyBatch db c3Ops [c3EntityA, c3EntityB]).hasRow Table.channel "1" = true := by
  refine ⟨rfl, rfl, rfl⟩

/-- Witness for claim C3 at a concrete store. -/
theorem c3_witness :
    shouldIgnore.transaction { tables := [], classEntities := [], nextEntityId := 0 }
      c3Ops [c3EntityA, c3EntityB] = false ∧
    (applyBatch { tables := [], classEntities := [], nextEntityId := 0 }
      c3Ops [c3EntityA, c3EntityB]).hasRow Table.video "0" = true ∧
    (applyBatch { tables := [], classEntities := [], nextEntityId := 0 }
      c3Ops [c3EntityA, c3EntityB]).hasRow Table.channel "1" = true :=
  c3_forward_reference_batch_succeeds
    { tables := [], classEntities := [], nextEntityId := 0 }

/-- A store for claim C4: entity "99" has a ClassEntity row whose class id 999
is outside the known-class registry. -/
def c4Store : Store :=
  { tables := []
    classEntities := [{ id := "99", classId := 999, version := 5, happenedIn := 5 }]
    nextEntityId := 0 }

/-- The event of claim C4: a standalone property-values update (extrinsic
present, method not a transaction wrapper) on entity 99. -/
def c4Event : SubstrateEvent :=
  { blockNumber := 6, entityId := 99, classId := 0
    extrinsic := some { method := "u" }, raw := {} }

/-- Claim C4 counterexample: the claim says that during
EntityPropertyValuesUpdated an unknown class raises a fatal error.  On entity
99, whose class id 999 resolves to no known class, the handler returns
normally with the store unchanged (`index.ts` line 291: `if (!knownClass)
return`) - no fatal error is raised. -/
theorem c4_counterexample_update_unknown_class_silent :
    entityPropertyValuesUpdated c4Store c4Event = Except.ok c4Store := by
  rfl

/-- Claim C4 as amended: resolution to an unknown class is handled uniformly,
not asymmetrically - EntitySchemaSupportAdded, EntityPropertyValuesUpdated and
EntityRemoved all silently drop the event, with no error and no store
mutation, when the entity's class id is outside the known-class registry. -/
theorem c4_unknown_class_uniform_silent_drop
    (db : Store) (event : SubstrateEvent) (ce : ClassEntityRow) (ex : Extrinsic)
    (hce : db.classEntities.find? (fun r => r.id == toString event.entityId) = some ce)
    (hunknown : knownClassOfId ce.classId = none)
    (hex : event.extrinsic = some ex)
    (hm : (ex.method == "transaction") = false) :
    entitySchemaSupportAdded db event = Except.ok db ∧
    entityPropertyValuesUpdated db event = Except.ok db ∧
    entityRemoved db event = (db, []) := by
  have hmap : getKnownClass db (toString event.entityId) =
      (knownClassOfId ce.classId).map (fun cn => (cn, ce)) := by
    unfold getKnownClass
    rw [hce]
  have hk : getKnownClass db (toString event.entityId) = none := by
    rw [hmap, hunknown]
    rfl
  have ht : isTransactionWrapper event.extrinsic = false := by
    rw [hex]; simpa [isTransactionWrapper] using hm
  refine ⟨?_, ?_, ?_⟩
  · simp [entitySchemaSupportAdded, ht, hk]
  · simp [entityPropertyValuesUpdated, ht, hk, hex]
  · simp [entityRemoved, hk]

/-- Witness for claim C4's amended theorem at the concrete unknown-class
store and event. -/
theorem c4_witness :
    entitySchemaSupportAdded c4Store c4Event = Except.ok c4Store ∧
    entityPropertyValuesUpdated c4Store c4Event = Except.ok c4Store ∧
    entityRemoved c4Store c4Event = (c4Store, []) :=
  c4_unknown_class_uniform_silent_drop c4Store c4Event
    { id := "99", classId := 999, version := 5, happenedIn := 5 }
    { method := "u" } (by decide) (by decide) rfl (by decide)

/-- A store for claim C5: entity "10" has a ClassEntity row of the Channel
class (class id 1), and no typed rows exist. -/
def c5Store : Store :=
  { tables := []
    classEntities := [{ id := "10", classId := 1, version := 3, happenedIn := 3 }]
    nextEntityId := 0 }

/-- The event of claim C5: a standalone EntitySchemaSupportAdded for entity
10 with no Reference-valued properties, so every reference trivially
resolves. -/
def c5Event : SubstrateEvent :=
  { blockNumber := 4, entityId := 10, classId := 1, extrinsic := none, raw := {} }

/-- Claim C5 (code bug): the claim says that when the class is known and all
references resolve against the store, the matching create-handler is invoked.
The standalone check indeed reports nothing to ignore, yet the handler returns
with the store unchanged and no Channel row is ever attached, because
`index.ts` line 108 tests `shouldIgnore.channel(props, db)` without `await`:
the un-awaited Promise object is always truthy, so every reference-checked arm
returns before reaching its create-handler. -/
theorem c5_schema_attach_always_dropped_bug :
    shouldIgnore.channel
      (decodeChannel (schemaAddedLayoutFor ClassName.channel) c5Event.raw) c5Store = false ∧
    entitySchemaSupportAdded c5Store c5Event = Except.ok c5Store ∧
    c5Store.hasRow Table.channel "10" = false := by
  refine ⟨by decide, by rfl, by decide⟩

/-- Claim C6: the standalone reference checks consult only the persisted
typed rows - two stores with the same tables get the same verdict for every
class, layout and payload - and whenever the standalone verdict on a
dispatched schema-attach or property-update event is "unresolved", the event
is dropped silently: the handler returns without error and with the store
unchanged. -/
theorem c6_standalone_checks_store_only_and_silent_drop :
    (∀ (cn : ClassName) (layout : Layout) (raw : RawProps) (db db' : Store),
      db.tables = db'.tables →
      standaloneVerdict cn layout raw db = standaloneVerdict cn layout raw db') ∧
    (∀ (db : Store) (event : SubstrateEvent) (cn : ClassName) (ce : ClassEntityRow),
      getKnownClass db (toString event.entityId) = some (cn, ce) →
      isTransactionWrapper event.extrinsic = false →
      standaloneVerdict cn (schemaAddedLayoutFor cn) event.raw db = true →
      entitySchemaSupportAdded db event = Except.ok db) ∧
    (∀ (db : Store) (event : SubstrateEvent) (cn : ClassName) (ce : ClassEntityRow)
        (ex : Extrinsic),
      getKnownClass db (toString event.entityId) = some (cn, ce) →
      event.extrinsic = some ex →
      (ex.method == "transaction") = false →
      standaloneVerdict cn (updatedLayoutFor cn) event.raw db = true →
      entityPropertyValuesUpdated db event = Except.ok db) := by
  refine ⟨?_, ?_, ?_⟩
  · intro cn layout raw db db' h
    cases cn <;>
      simp [standaloneVerdict, shouldIgnore.channel, shouldIgnore.videoMedia,
        shouldIgnore.video, shouldIgnore.license, shouldIgnore.mediaLocation,
        shouldIgnore.featuredVideo, Store.hasRow, h]
  · intro db event cn ce hk ht hv
    cases cn <;>
      first
        | (simp only [standaloneVerdict] at hv; exact absurd hv (by decide))
        | simp [entitySchemaSupportAdded, ht, hk, JsPromise.isTruthy]
  · intro db event cn ce ex hk hex hm hv
    have ht : isTransactionWrapper event.extrinsic = false := by
      rw [hex]; simpa [isTransactionWrapper] using hm
    cases cn <;>
      first
        | (simp only [standaloneVerdict] at hv; exact absurd hv (by decide))
        | simp [entityPropertyValuesUpdated, ht, hk, hex, JsPromise.isTruthy]

/-- A store for the claim C6 witness: entity "7" is a Channel, and the
Language row its payload references is absent. -/
def c6Store : Store :=
  { tables := []
    classEntities := [{ id := "7", classId := 1, version := 0, happenedIn := 0 }]
    nextEntityId := 0 }

/-- The event of the claim C6 witness: a standalone schema-attach on entity 7
whose language Reference targets the absent Language row 3. -/
def c6Event : SubstrateEvent :=
  { blockNumber := 1, entityId := 7, classId := 1, extrinsic := none
    raw := { language := some { entityId := 3, existing := true } } }

/-- Witness for claim C6: at the concrete store and event the standalone
verdict is "unresolved" and the schema-attach event is dropped silently. -/
theorem c6_witness :
    standaloneVerdict ClassName.channel (schemaAddedLayoutFor ClassName.channel)
      c6Event.raw c6Store = true ∧
    entitySchemaSupportAdded c6Store c6Event = Except.ok c6Store :=
  ⟨by decide,
    c6_standalone_checks_store_only_and_silent_drop.2.1 c6Store c6Event
      ClassName.channel { id := "7", classId := 1, version := 0, happenedIn := 0 }
      (by decide) (by decide) (by decide)⟩

/-- Claim C7: an EntityRemoved run either leaves the store untouched and
performs no deletion at all, or - when a known class resolves - ends with both
the typed row and the ClassEntity row of the entity absent, and its deletion
trace is exactly the typed remove immediately followed by the ClassEntity
remove: never the ClassEntity deletion before the typed one or without it. -/
theorem c7_remove_both_or_neither (db : Store) (event : SubstrateEvent) :
    entityRemoved db event = (db, []) ∨
    (∃ cn ce, getKnownClass db (toString event.entityId) = some (cn, ce) ∧
      (entityRemoved db event).1.hasRow (tableOf cn) (toString event.entityId) = false ∧
      ((entityRemoved db event).1.classEntities.find?
        (fun r => r.id == toString event.entityId)) = none ∧
      (entityRemoved db event).2 =
        [StoreOp.removeTyped (tableOf cn) (toString event.entityId),
          StoreOp.removeClassEntity (toString event.entityId)]) := by
  rcases hk : getKnownClass db (toString event.entityId) with _ | p
  · left
    simp [entityRemoved, hk]
  · obtain ⟨cn, ce⟩ := p
    right
    have hid : ce.id = toString event.entityId := getKnownClass_id_eq hk
    refine ⟨cn, ce, rfl, ?_, ?_, ?_⟩
    · cases cn <;>
        simp [entityRemoved, hk, removeClassEntityRow, removeChannel, removeCategory,
          removeKnownLicense, removeUserDefinedLicense, removeJoystreamMediaLocation,
          removeHttpMediaLocation, removeVideoMedia, removeVideo, removeLanguage,
          removeVideoMediaEncoding, removeLicense, removeMediaLocation,
          removeFeaturedVideo, removeTypedRow, tableOf, Store.hasRow,
          any_filter_not_eq_false] <;>
        tauto
    · cases cn <;>
        simp [entityRemoved, hk, removeClassEntityRow, removeChannel, removeCategory,
          removeKnownLicense, removeUserDefinedLicense, removeJoystreamMediaLocation,
          removeHttpMediaLocation, removeVideoMedia, removeVideo, removeLanguage,
          removeVideoMediaEncoding, removeLicense, removeMediaLocation,
          removeFeaturedVideo, removeTypedRow, hid, find?_filter_not_eq_none,
          List.find?_eq_none]
    · cases cn <;> simp [entityRemoved, hk, hid, tableOf]

/-- Witness for claim C7 at a concrete store holding a Video row and its
ClassEntity row for entity 4. -/
theorem c7_witness :
    entityRemoved
        { tables := [(Table.video, "4")]
          classEntities := [{ id := "4", classId := 8, version := 2, happenedIn := 2 }]
          nextEntityId := 0 }
        { blockNumber := 9, entityId := 4, classId := 0, extrinsic := none, raw := {} } =
      ({ tables := [], classEntities := [], nextEntityId := 0 },
        [StoreOp.removeTyped Table.video "4", StoreOp.removeClassEntity "4"]) ∧
    (entityRemoved
        { tables := [(Table.video, "4")]
          classEntities := [{ id := "4", classId := 8, version := 2, happenedIn := 2 }]
          nextEntityId := 0 }
        { blockNumber := 9, entityId := 4, classId := 0, extrinsic := none, raw := {} } =
        ({ tables := [(Table.video, "4")]
           classEntities := [{ id := "4", classId := 8, version := 2, happenedIn := 2 }]
           nextEntityId := 0 }, []) ∨
      (∃ cn ce,
        getKnownClass
          { tables := [(Table.video, "4")]
            classEntities := [{ id := "4", classId := 8, version := 2, happenedIn := 2 }]
            nextEntityId := 0 } "4" = some (cn, ce) ∧
        (entityRemoved
          { tables := [(Table.video, "4")]
            classEntities := [{ id := "4", classId := 8, version := 2, happenedIn := 2 }]
            nextEntityId := 0 }
          { blockNumber := 9, entityId := 4, classId := 0, extrinsic := none,
            raw := {} }).1.hasRow (tableOf cn) "4" = false ∧
        ((entityRemoved
          { tables := [(Table.video, "4")]
            classEntities := [{ id := "4", classId := 8, version := 2, happenedIn := 2 }]
            nextEntityId := 0 }
          { blockNumber := 9, entityId := 4, classId := 0, extrinsic := none,
            raw := {} }).1.classEntities.find? (fun r => r.id == "4")) = none ∧
        (entityRemoved
          { tables := [(Table.video, "4")]
            classEntities := [{ id := "4", classId := 8, version := 2, happenedIn := 2 }]
            nextEntityId := 0 }
          { blockNumber := 9, entityId := 4, classId := 0, extrinsic := none,
            raw := {} }).2 =
          [StoreOp.removeTyped (tableOf cn) "4", StoreOp.removeClassEntity "4"])) :=
  ⟨by decide,
    c7_remove_both_or_neither
      { tables := [(Table.video, "4")]
        classEntities := [{ id := "4", classId := 8, version := 2, happenedIn := 2 }]
        nextEntityId := 0 }
      { blockNumber := 9, entityId := 4, classId := 0, extrinsic := none, raw := {} }⟩

/-- Claim C8: a non-transaction-wrapped EntityCreated event saves a
ClassEntity row with the stringified entity id, the event's class id and the
block height as version, advances the global next-entity-id counter to
`entityId + 1`, and creates no typed row - with no condition on whether the
class id belongs to the known-class enumeration. -/
theorem c8_entity_created_effects (db : Store) (event : SubstrateEvent)
    (h : isTransactionWrapper event.extrinsic = false) :
    (entityCreated db event).classEntities.find?
        (fun r => r.id == toString event.entityId) =
      some { id := toString event.entityId, classId := event.classId,
             version := event.blockNumber, happenedIn := event.blockNumber } ∧
    (entityCreated db event).nextEntityId = event.entityId + 1 ∧
    (entityCreated db event).tables = db.tables := by
  refine ⟨?_, ?_, ?_⟩
  · simp only [entityCreated, h, Bool.false_eq_true, if_false, setNextEntityId]
    exact find?_saveClassEntityRow db.classEntities
      { id := toString event.entityId, classId := event.classId,
        version := event.blockNumber, happenedIn := event.blockNumber }
  · simp [entityCreated, h, setNextEntityId]
  · simp [entityCreated, h, setNextEntityId]

/-- Witness for claim C8: a concrete EntityCreated event for class id 99,
outside the known-class registry, on an empty store. -/
theorem c8_witness :
    (entityCreated { tables := [], classEntities := [], nextEntityId := 0 }
        { blockNumber := 2, entityId := 1, classId := 99,
          extrinsic := some { method := "u" }, raw := {} }).classEntities.find?
        (fun r => r.id == "1") =
      some { id := "1", classId := 99, version := 2, happenedIn := 2 } ∧
    (entityCreated { tables := [], classEntities := [], nextEntityId := 0 }
        { blockNumber := 2, entityId := 1, classId := 99,
          extrinsic := some { method := "u" }, raw := {} }).nextEntityId = 2 ∧
    (entityCreated { tables := [], classEntities := [], nextEntityId := 0 }
        { blockNumber := 2, entityId := 1, classId := 99,
          extrinsic := some { method := "u" }, raw := {} }).tables = [] :=
  c8_entity_created_effects { tables := [], classEntities := [], nextEntityId := 0 }
    { blockNumber := 2, entityId := 1, classId := 99,
      extrinsic := some { method := "u" }, raw := {} } (by decide)

/-- Claim C9 (code bug): the claim says each dispatched schema-attach or
property-update event is decoded with the layout of its own resolved class.
Transcribing the switch arms of `index.ts`: the VIDEOMEDIA arm of both
handlers passes the Video layout (lines 143 and 347), and the LICENSE and
MEDIALOCATION arms of the update handler pass the VideoMediaEncoding layout
(lines 377 and 384) - in each case a layout different from the resolved
class's own. -/
theorem c9_layout_selection_bug :
    schemaAddedLayoutFor ClassName.videoMedia = videoPropertyNamesWithId ∧
    updatedLayoutFor ClassName.videoMedia = videoPropertyNamesWithId ∧
    videoPropertyNamesWithId ≠ videoMediaPropertyNamesWithId ∧
    updatedLayoutFor ClassName.license = videoMediaEncodingPropertyNamesWithId ∧
    videoMediaEncodingPropertyNamesWithId ≠ licensePropertyNamesWithId ∧
    updatedLayoutFor ClassName.mediaLocation = videoMediaEncodingPropertyNamesWithId ∧
    videoMediaEncodingPropertyNamesWithId ≠ mediaLocationPropertyNamesWithId := by
  refine ⟨rfl, rfl, by decide, rfl, by decide, rfl, by decide⟩

/-- Claim C10: when the event's extrinsic method is the multi-operation
"transaction" wrapper, EntityCreated, EntitySchemaSupportAdded and
EntityPropertyValuesUpdated all return immediately with the store unchanged,
while EntityRemoved takes no notice of the wrapper: it produces exactly the
result it produces for any event with the same entity id and any other
extrinsic. -/
theorem c10_removed_ignores_transaction_wrapper
    (db : Store) (event other : SubstrateEvent)
    (h : isTransactionWrapper event.extrinsic = true)
    (hid : other.entityId = event.entityId) :
    entityCreated db event = db ∧
    entitySchemaSupportAdded db event = Except.ok db ∧
    entityPropertyValuesUpdated db event = Except.ok db ∧
    entityRemoved db event = entityRemoved db other := by
  refine ⟨?_, ?_, ?_, ?_⟩
  · simp [entityCreated, h]
  · simp [entitySchemaSupportAdded, h]
  · simp [entityPropertyValuesUpdated, h]
  · simp [entityRemoved, hid]

/-- Witness for claim C10: a transaction-wrapped event on entity 4, compared
with the unwrapped event on the same entity, over a store where entity 4 is a
persisted Video. -/
theorem c10_witness :
    entityCreated
        { tables := [(Table.video, "4")]
          classEntities := [{ id := "4", classId := 8, version := 2, happenedIn := 2 }]
          nextEntityId := 0 }
        { blockNumber := 9, entityId := 4, classId := 8,
          extrinsic := some { method := "transaction" }, raw := {} } =
      { tables := [(Table.video, "4")]
        classEntities := [{ id := "4", classId := 8, version := 2, happenedIn := 2 }]
        nextEntityId := 0 } ∧
    entitySchemaSupportAdded
        { tables := [(Table.video, "4")]
          classEntities := [{ id := "4", classId := 8, version := 2, happenedIn := 2 }]
          nextEntityId := 0 }
        { blockNumber := 9, entityId := 4, classId := 8,
          extrinsic := some { method := "transaction" }, raw := {} } =
      Except.ok
        { tables := [(Table.video, "4")]
          classEntities := [{ id := "4", classId := 8, version := 2, happenedIn := 2 }]
          nextEntityId := 0 } ∧
    entityPropertyValuesUpdated
        { tables := [(Table.video, "4")]
          classEntities := [{ id := "4", classId := 8, version := 2, happenedIn := 2 }]
          nextEntityId := 0 }
        { blockNumber := 9, entityId := 4, classId := 8,
          extrinsic := some { method := "transaction" }, raw := {} } =
      Except.ok
        { tables := [(Table.video, "4")]
          classEntities := [{ id := "4", classId := 8, version := 2, happenedIn := 2 }]
          nextEntityId := 0 } ∧
    entityRemoved
        { tables := [(Table.video, "4")]
          classEntities := [{ id := "4", classId := 8, version := 2, happenedIn := 2 }]
          nextEntityId := 0 }
        { blockNumber := 9, entityId := 4, classId := 8,
          extrinsic := some { method := "transaction" }, raw := {} } =
      entityRemoved
        { tables := [(Table.video, "4")]
          classEntities := [{ id := "4", classId := 8, version := 2, happenedIn := 2 }]
          nextEntityId := 0 }
        { blockNumber := 9, entityId := 4, classId := 8, extrinsic := none, raw := {} } :=
  c10_removed_ignores_transaction_wrapper
    { tables := [(Table.video, "4")]
      classEntities := [{ id := "4", classId := 8, version := 2, happenedIn := 2 }]
      nextEntityId := 0 }
    { blockNumber := 9, entityId := 4, classId := 8,
      extrinsic := some { method := "transaction" }, raw := {} }
    { blockNumber := 9, entityId := 4, classId := 8, extrinsic := none, raw := {} }
    (by decide) rfl

end ContentDirectory
